import Mathlib

/-!
Verification of the remux core of `videostreamer` (files `videostreamer.c`,
`videostreamer.h`, `cmd/remux_example/remux_example.c`).

The C code is shallowly embedded: int64 timestamp values are modelled as `Int`
(`AV_NOPTS_VALUE` is the concrete sentinel `-2^63`), the libav collaborator
calls (`av_read_frame`, `av_write_frame`, `avio_open`, ...) are modelled by
explicit outcome parameters and effect traces, and `av_rescale_q_rnd` with
`AV_ROUND_NEAR_INF | AV_ROUND_PASS_MINMAX` is modelled by its documented
mathematical semantics: a*b/c rounded to nearest with ties away from zero,
`INT64_MIN`/`INT64_MAX` passed through, `INT64_MIN` on unrepresentable
results.
-/

/-- The smallest signed 64-bit integer, `INT64_MIN`. -/
def INT64_MIN : Int := -(2 ^ 63)

/-- The largest signed 64-bit integer, `INT64_MAX`. -/
def INT64_MAX : Int := 2 ^ 63 - 1

/-- The sentinel `AV_NOPTS_VALUE`: the libav "timestamp unset" sentinel, equal to `INT64_MIN`. -/
def AV_NOPTS_VALUE : Int := INT64_MIN

/-- A libav `AVRational`: a time base `num/den`. -/
structure AVRational where
  num : Int
  den : Int
  deriving DecidableEq, Repr

/-- Rounding `n / c` to the nearest integer with ties away from zero, for `c > 0`.
This is `av_rescale_rnd`'s arithmetic for `AV_ROUND_NEAR_INF`: for nonnegative
`n` it computes `(n + c/2) / c` in truncating machine division (equal to `Int./`
here because both operands are nonnegative), and negative `n` is handled by
symmetry exactly as in the C implementation. -/
def roundNearInf (n c : Int) : Int :=
  if 0 ≤ n then (n + c / 2) / c else -((-n + c / 2) / c)

/-- Whether `x` is representable as a signed 64-bit integer. -/
def int64Rep (x : Int) : Prop := INT64_MIN ≤ x ∧ x ≤ INT64_MAX

instance (x : Int) : Decidable (int64Rep x) := by
  unfold int64Rep; infer_instance

/-- The collaborator function `av_rescale_rnd a b c` with `AV_ROUND_NEAR_INF`: rescale `a` by the rational
factor `b/c`, rounding to nearest with ties away from zero; returns `INT64_MIN`
when the result is not representable in 64 bits (documented clamp). -/
def av_rescale_rnd (a b c : Int) : Int :=
  let r := roundNearInf (a * b) c
  if int64Rep r then r else INT64_MIN

/-- The collaborator function `av_rescale_q_rnd a bq cq` with rounding
`AV_ROUND_NEAR_INF | AV_ROUND_PASS_MINMAX`: `INT64_MIN` and `INT64_MAX` pass
through unchanged; otherwise rescale by `(bq.num * cq.den) / (cq.num * bq.den)`. -/
def av_rescale_q_rnd (a : Int) (bq cq : AVRational) : Int :=
  if a = INT64_MIN ∨ a = INT64_MAX then a
  else av_rescale_rnd a (bq.num * cq.den) (cq.num * bq.den)

/-- The collaborator function `av_rescale_q`: rescale with `AV_ROUND_NEAR_INF` and no min/max pass-through
(used for the packet duration). -/
def av_rescale_q (a : Int) (bq cq : AVRational) : Int :=
  av_rescale_rnd a (bq.num * cq.den) (cq.num * bq.den)

/-- The timing-relevant fields of an `AVPacket`. -/
structure AVPacket where
  pts : Int
  dts : Int
  duration : Int
  pos : Int
  stream_index : Int
  deriving DecidableEq, Repr

/-- The mutable `VSOutput` state observed by `vs_write_packet`: the last DTS committed
to the muxer (`output->last_dts`). -/
structure VSOutput where
  last_dts : Int
  deriving DecidableEq, Repr

/-- The repair condition `fix_dts` of `vs_write_packet` (videostreamer.c lines 379-388): repair is
needed when the raw DTS is set, `last_dts` is set and the raw DTS is at most
`last_dts`, or when the raw DTS is unset while `last_dts` is set. -/
def fix_dts (dts last_dts : Int) : Bool :=
  (dts ≠ AV_NOPTS_VALUE && last_dts ≠ AV_NOPTS_VALUE && dts ≤ last_dts) ||
    (dts = AV_NOPTS_VALUE && last_dts ≠ AV_NOPTS_VALUE)

/-- The packet mutation performed by `vs_write_packet` (videostreamer.c lines
339-439): stream index remap to 0, DTS repair, PTS companion fix, the
unset-to-0 defaults, source-to-destination rescales of PTS/DTS/duration, and
the position reset. `in_tb`/`out_tb` are the input and output stream time
bases. -/
def vs_transform (in_tb out_tb : AVRational) (last_dts : Int) (pkt : AVPacket) :
    AVPacket :=
  let pkt0 := { pkt with stream_index := 0 }
  let pkt1 :=
    if fix_dts pkt0.dts last_dts then
      let next_dts := last_dts + 1
      let pts1 :=
        if pkt0.pts ≠ AV_NOPTS_VALUE ∧ pkt0.pts ≥ pkt0.dts then
          max pkt0.pts next_dts
        else pkt0.pts
      let pts2 := if pts1 = AV_NOPTS_VALUE then next_dts else pts1
      { pkt0 with pts := pts2, dts := next_dts }
    else pkt0
  let pts3 :=
    if pkt1.pts = AV_NOPTS_VALUE then 0
    else av_rescale_q_rnd pkt1.pts in_tb out_tb
  let dts3 :=
    if pkt1.dts = AV_NOPTS_VALUE then 0
    else av_rescale_q_rnd pkt1.dts in_tb out_tb
  { pkt1 with pts := pts3, dts := dts3
            , duration := av_rescale_q pkt1.duration in_tb out_tb
            , pos := -1 }

/-- The function `vs_write_packet` (videostreamer.c lines 323-462) for a packet that passed
the stream filter: transforms the packet, stores its corrected DTS into
`output->last_dts` (line 448, before the write), then hands the packet to
`av_write_frame`, whose outcome is the collaborator parameter `write_ok`.
Returns the C result (`1` wrote, `-1` error), the new output state and the
transformed packet. -/
def vs_write_packet (in_tb out_tb : AVRational) (output : VSOutput)
    (pkt : AVPacket) (write_ok : Bool) : Int × VSOutput × AVPacket :=
  let pkt' := vs_transform in_tb out_tb output.last_dts pkt
  let output' : VSOutput := { last_dts := pkt'.dts }
  if write_ok then (1, output', pkt') else (-1, output', pkt')

/-- Media kind of a stream (`codecpar->codec_type`). -/
inductive AVMediaType where
  | video
  | audio
  | data
  | subtitle
  | other
  deriving DecidableEq, Repr

/-- The stream-selection loop of `vs_open_input` (videostreamer.c lines 82-98):
walk the streams in declaration order and return the index of the first one
whose media kind is video, or `-1` when there is none. -/
def findVideoStreamIndex : List AVMediaType → Int → Int
  | [], _ => -1
  | t :: rest, i => if t = AVMediaType.video then i else findVideoStreamIndex rest (i + 1)

/-- The `VSInput` session state: the index of the selected video stream and the
probed stream layout. -/
structure VSInput where
  video_stream_index : Int
  streams : List AVMediaType
  deriving DecidableEq, Repr

/-- External calls whose occurrence the lifecycle claims observe. -/
inductive Effect where
  | find_input_format
  | avformat_open_input
  | find_stream_info
  | close_input
  | guess_output_format
  | alloc_output_context
  | new_stream
  | copy_codec_params
  | avio_open
  | write_header
  | write_trailer
  | avio_close
  | free_context
  deriving DecidableEq, Repr

/-- Collaborator outcomes consumed by `vs_open_input`. -/
structure InputEnv where
  calloc_ok : Bool
  format_found : Bool
  open_ok : Bool
  stream_info_ok : Bool
  streams : List AVMediaType
  deriving DecidableEq, Repr

/-- The function `vs_open_input` (videostreamer.c lines 38-108): argument
validation, then `av_find_input_format`, `avformat_open_input`,
`avformat_find_stream_info` and the first-video-stream scan, failing (with the
cleanup that `vs_destroy_input` performs) as in the C ladder. `none` stands for
a NULL C string argument and `some ""` for an empty one. The effect list
records the collaborator calls that were made. -/
def vs_open_input (fmt url : Option String) (env : InputEnv) :
    Option VSInput × List Effect :=
  if fmt = none ∨ fmt = some "" ∨ url = none ∨ url = some "" then (none, [])
  else if env.calloc_ok = false then (none, [])
  else if env.format_found = false then (none, [Effect.find_input_format])
  else if env.open_ok = false then
    (none, [Effect.find_input_format, Effect.avformat_open_input])
  else if env.stream_info_ok = false then
    (none, [Effect.find_input_format, Effect.avformat_open_input,
      Effect.find_stream_info, Effect.close_input])
  else
    let idx := findVideoStreamIndex env.streams 0
    if idx = -1 then
      (none, [Effect.find_input_format, Effect.avformat_open_input,
        Effect.find_stream_info, Effect.close_input])
    else
      (some ⟨idx, env.streams⟩,
        [Effect.find_input_format, Effect.avformat_open_input,
          Effect.find_stream_info])

/-- Collaborator outcomes consumed by `vs_open_output`. -/
structure OutputEnv where
  calloc_ok : Bool
  guess_ok : Bool
  alloc_ok : Bool
  new_stream_ok : Bool
  copy_params_ok : Bool
  avio_ok : Bool
  movflags_ok : Bool
  flush_packets_ok : Bool
  write_header_ok : Bool
  opts_fully_consumed : Bool
  deriving DecidableEq, Repr

/-- Cleanup effects of `vs_destroy_output` once `output->format_ctx` is set:
trailer write, avio close, context free (videostreamer.c lines 255-265). -/
def destroyOutputEffects : List Effect :=
  [Effect.write_trailer, Effect.avio_close, Effect.free_context]

/-- The function `vs_open_output` (videostreamer.c lines 124-246): argument
validation (NULL/empty format name or URL, NULL input), then the ladder
`av_guess_format`, `avformat_alloc_output_context2`, `avformat_new_stream`,
`avcodec_parameters_copy`, `avio_open`, the two `av_dict_set` calls,
`avformat_write_header` and the leftover-options check; every failure after the
context allocation runs the `vs_destroy_output` cleanup. On success the
returned session has `last_dts = AV_NOPTS_VALUE` (line 243). -/
def vs_open_output (fmt url : Option String) (input : Option VSInput)
    (env : OutputEnv) : Option VSOutput × List Effect :=
  if fmt = none ∨ fmt = some "" ∨ url = none ∨ url = some "" ∨ input = none then
    (none, [])
  else if env.calloc_ok = false then (none, [])
  else if env.guess_ok = false then (none, [Effect.guess_output_format])
  else if env.alloc_ok = false then
    (none, [Effect.guess_output_format, Effect.alloc_output_context])
  else if env.new_stream_ok = false then
    (none, [Effect.guess_output_format, Effect.alloc_output_context,
      Effect.new_stream] ++ destroyOutputEffects)
  else if env.copy_params_ok = false then
    (none, [Effect.guess_output_format, Effect.alloc_output_context,
      Effect.new_stream, Effect.copy_codec_params] ++ destroyOutputEffects)
  else if env.avio_ok = false then
    (none, [Effect.guess_output_format, Effect.alloc_output_context,
      Effect.new_stream, Effect.copy_codec_params, Effect.avio_open]
      ++ destroyOutputEffects)
  else if env.movflags_ok = false then
    (none, [Effect.guess_output_format, Effect.alloc_output_context,
      Effect.new_stream, Effect.copy_codec_params, Effect.avio_open]
      ++ destroyOutputEffects)
  else if env.flush_packets_ok = false then
    (none, [Effect.guess_output_format, Effect.alloc_output_context,
      Effect.new_stream, Effect.copy_codec_params, Effect.avio_open]
      ++ destroyOutputEffects)
  else if env.write_header_ok = false then
    (none, [Effect.guess_output_format, Effect.alloc_output_context,
      Effect.new_stream, Effect.copy_codec_params, Effect.avio_open,
      Effect.write_header] ++ destroyOutputEffects)
  else if env.opts_fully_consumed = false then
    (none, [Effect.guess_output_format, Effect.alloc_output_context,
      Effect.new_stream, Effect.copy_codec_params, Effect.avio_open,
      Effect.write_header] ++ destroyOutputEffects)
  else
    (some ⟨AV_NOPTS_VALUE⟩,
      [Effect.guess_output_format, Effect.alloc_output_context,
        Effect.new_stream, Effect.copy_codec_params, Effect.avio_open,
        Effect.write_header])

/-- Contents of a live destination session allocation: `format_ctx` records
whether `output->format_ctx` is non-NULL. -/
structure VSOutputSession where
  format_ctx : Bool
  last_dts : Int
  deriving DecidableEq, Repr

/-- A destination session pointer as the caller holds it: NULL, a pointer to a
live allocation, or a dangling pointer whose allocation `free(output)` has
already released. The C caller's pointer is passed by value, so
`vs_destroy_output` never turns the caller's `live` pointer into `null`: after
a destroy the same pointer is `freed`. -/
inductive SessionPtr where
  | null
  | live : VSOutputSession → SessionPtr
  | freed
  deriving DecidableEq, Repr

/-- Result of one `vs_destroy_output` call: a defined run with its effect
trace, or undefined behaviour. -/
inductive DestroyOutcome where
  | ok : List Effect → DestroyOutcome
  | ub
  deriving DecidableEq, Repr

/-- The function `vs_destroy_output` (videostreamer.c lines 248-268): a NULL
pointer is rejected by the guard at line 251 (no effects); on a live session,
when `format_ctx` is set, write the trailer, close the avio handle and free
the context — the results of `av_write_trailer` (`trailer_ok`) and
`avio_closep` (`closep_ok`) are only printed and do not stop the remaining
steps — then `free(output)` releases the allocation unconditionally (line
267), leaving the caller's pointer dangling (`freed`). A call on a dangling
pointer passes the NULL guard (the pointer is non-NULL) and then reads
`output->format_ctx` from freed memory: a use-after-free, whose behaviour the
code does not define (`DestroyOutcome.ub`). -/
def vs_destroy_output (s : SessionPtr) (trailer_ok closep_ok : Bool) :
    SessionPtr × DestroyOutcome :=
  match s with
  | SessionPtr.null => (SessionPtr.null, DestroyOutcome.ok [])
  | SessionPtr.live h =>
    if h.format_ctx then (SessionPtr.freed, DestroyOutcome.ok destroyOutputEffects)
    else (SessionPtr.freed, DestroyOutcome.ok [])
  | SessionPtr.freed => (SessionPtr.freed, DestroyOutcome.ub)

/-- The raw outcome of one `av_read_frame` call: `none` for a nonzero return
(end of stream or error), `some p` for a successfully read packet. -/
def RawRead := Option AVPacket

/-- The function `vs_read_packet` (videostreamer.c lines 276-314): `-1` when
`av_read_frame` fails, `0` (packet dropped) when the packet's stream index is
not the selected video stream, `1` with the packet unchanged otherwise. -/
def vs_read_packet (video_stream_index : Int) (raw : Option AVPacket) :
    Int × Option AVPacket :=
  match raw with
  | none => (-1, none)
  | some p =>
    if p.stream_index ≠ video_stream_index then (0, none)
    else (1, some p)

/-- One iteration's collaborator behaviour in the `remux_example` pump loop:
either `av_read_frame` fails, or it yields a packet together with the outcome
`av_write_frame` would report for it. -/
inductive RdEv where
  | err : RdEv
  | frame : AVPacket → Bool → RdEv
  deriving DecidableEq, Repr

/-- Which session a teardown call acted on. -/
inductive Tag where
  | input
  | output
  deriving DecidableEq, Repr

/-- Observable outcome of the `remux_example` run: process exit code, number of
packets committed (successful `vs_write_packet` calls), the order of the
`vs_destroy_input`/`vs_destroy_output` calls, the number of trailer writes
performed by teardown, and the final output state. -/
structure RunResult where
  code : Int
  committed : Nat
  teardown : List Tag
  trailerWrites : Nat
  finalOutput : VSOutput
  deriving DecidableEq, Repr

/-- The pump loop of `remux_example.c` (lines 41-77) plus the teardown after
it: read, skip non-video packets (`continue`), write, count frames, and break
once the counter reaches `max_frames`; on read failure (including source
exhaustion, where `av_read_frame` reports an error) or write failure destroy
input then output and exit 1; after a budget break or loop exit destroy input
then output and exit 0. Destroying the output writes the trailer
(`vs_destroy_output` on a session whose `format_ctx` is set). -/
def remuxLoop (vidx : Int) (in_tb out_tb : AVRational) (max_frames : Int) :
    List RdEv → Int → VSOutput → Nat → RunResult
  | [], _, out, n =>
    { code := 1, committed := n, teardown := [Tag.input, Tag.output]
    , trailerWrites := 1, finalOutput := out }
  | RdEv.err :: _, _, out, n =>
    { code := 1, committed := n, teardown := [Tag.input, Tag.output]
    , trailerWrites := 1, finalOutput := out }
  | RdEv.frame p wok :: rest, i, out, n =>
    if p.stream_index ≠ vidx then remuxLoop vidx in_tb out_tb max_frames rest i out n
    else
      let res := vs_write_packet in_tb out_tb out p wok
      if res.1 = -1 then
        { code := 1, committed := n, teardown := [Tag.input, Tag.output]
        , trailerWrites := 1, finalOutput := res.2.1 }
      else
        let committed := n + 1
        let iNext := i + 1
        if iNext = max_frames then
          { code := 0, committed := committed, teardown := [Tag.input, Tag.output]
          , trailerWrites := 1, finalOutput := res.2.1 }
        else remuxLoop vidx in_tb out_tb max_frames rest iNext res.2.1 committed

/-- Number of events in the pump event list that carry a packet of the
selected video stream. -/
def vidCount (vidx : Int) : List RdEv → Nat
  | [] => 0
  | RdEv.err :: rest => vidCount vidx rest
  | RdEv.frame p _ :: rest =>
    (if p.stream_index = vidx then 1 else 0) + vidCount vidx rest

/-- Whether the event list contains no read failures and only successful
writes. -/
def goodEvents : List RdEv → Bool
  | [] => true
  | RdEv.err :: _ => false
  | RdEv.frame _ wok :: rest => wok && goodEvents rest

/-- Safety of the rescale factor b/c: no in-range input overflows the 64-bit
clamp of `av_rescale_rnd`. -/
def rescaleSafe (b c : Int) : Prop :=
  ∀ x : Int, INT64_MIN < x → x < INT64_MAX →
    INT64_MIN < roundNearInf (x * b) c ∧ roundNearInf (x * b) c ≤ INT64_MAX

/-! ### Helper lemmas -/

lemma roundNearInf_nonneg_of_nonneg {n c : Int} (hn : 0 ≤ n) (hc : 0 < c) :
    0 ≤ roundNearInf n c := by
  unfold roundNearInf
  rw [if_pos hn]
  have hd : 0 ≤ c / 2 := Int.ediv_nonneg (le_of_lt hc) (by norm_num)
  exact Int.ediv_nonneg (by omega) (le_of_lt hc)

lemma roundNearInf_neg_eq {n c : Int} (hn : ¬ 0 ≤ n) :
    roundNearInf n c = -(roundNearInf (-n) c) := by
  unfold roundNearInf
  rw [if_neg hn, if_pos (by omega : (0:Int) ≤ -n)]

lemma roundNearInf_nonneg_char {n c : Int} (hn : 0 ≤ n) (hc : 0 < c) :
    2 * |n - c * roundNearInf n c| ≤ c ∧
      (2 * |n - c * roundNearInf n c| = c →
        2 * (c * |roundNearInf n c| - |n|) = c) := by
  have hr : roundNearInf n c = (n + c / 2) / c := by
    unfold roundNearInf; rw [if_pos hn]
  have hd : 0 ≤ c / 2 := Int.ediv_nonneg (le_of_lt hc) (by norm_num)
  have hc2 : 2 * (c / 2) + c % 2 = c := Int.ediv_add_emod c 2
  have hc2' : 0 ≤ c % 2 := Int.emod_nonneg c (by norm_num)
  have hc2'' : c % 2 < 2 := Int.emod_lt_of_pos c (by norm_num)
  have heq : c * ((n + c / 2) / c) + (n + c / 2) % c = n + c / 2 :=
    Int.ediv_add_emod (n + c / 2) c
  have hs0 : 0 ≤ (n + c / 2) % c := Int.emod_nonneg _ (ne_of_gt hc)
  have hs1 : (n + c / 2) % c < c := Int.emod_lt_of_pos _ hc
  have hq0 : 0 ≤ (n + c / 2) / c := Int.ediv_nonneg (by omega) (le_of_lt hc)
  rw [hr]
  set q := (n + c / 2) / c with hqdef
  set s := (n + c / 2) % c with hsdef
  have h1 : n - c * q = s - c / 2 := by linarith
  rw [h1, abs_of_nonneg hq0, abs_of_nonneg hn]
  constructor
  · rcases abs_cases (s - c / 2) with ⟨h2, _⟩ | ⟨h2, _⟩ <;> rw [h2] <;> omega
  · intro htie
    have h3 : c * q = n + c / 2 - s := by linarith
    rcases abs_cases (s - c / 2) with ⟨h2, _⟩ | ⟨h2, _⟩ <;> rw [h2] at htie <;> omega

lemma roundNearInf_char (n : Int) {c : Int} (hc : 0 < c) :
    2 * |n - c * roundNearInf n c| ≤ c ∧
      (2 * |n - c * roundNearInf n c| = c →
        2 * (c * |roundNearInf n c| - |n|) = c) := by
  by_cases hn : 0 ≤ n
  · exact roundNearInf_nonneg_char hn hc
  · have h := roundNearInf_nonneg_char (n := -n) (by omega) hc
    rw [roundNearInf_neg_eq hn]
    have h1 : |n - c * -roundNearInf (-n) c| = |-n - c * roundNearInf (-n) c| := by
      rw [← abs_neg]; ring_nf
    have h2 : |-roundNearInf (-n) c| = |roundNearInf (-n) c| := abs_neg _
    have h3 : |n| = |-n| := (abs_neg n).symm
    rw [h1, h2, h3]
    exact h

lemma roundNearInf_mono {c : Int} (hc : 0 < c) {x y : Int} (h : x ≤ y) :
    roundNearInf x c ≤ roundNearInf y c := by
  have hd : 0 ≤ c / 2 := Int.ediv_nonneg (le_of_lt hc) (by norm_num)
  unfold roundNearInf
  by_cases hx : 0 ≤ x <;> by_cases hy : 0 ≤ y
  · rw [if_pos hx, if_pos hy]
    exact Int.ediv_le_ediv hc (by omega)
  · omega
  · rw [if_neg hx, if_pos hy]
    have h1 : 0 ≤ (y + c / 2) / c := Int.ediv_nonneg (by omega) (le_of_lt hc)
    have h2 : 0 ≤ (-x + c / 2) / c := Int.ediv_nonneg (by omega) (le_of_lt hc)
    omega
  · rw [if_neg hx, if_neg hy]
    have := Int.ediv_le_ediv hc (show -y + c / 2 ≤ -x + c / 2 by omega)
    omega

lemma av_rescale_q_rnd_interior {a : Int} {bq cq : AVRational}
    (hsafe : rescaleSafe (bq.num * cq.den) (cq.num * bq.den))
    (h1 : INT64_MIN < a) (h2 : a < INT64_MAX) :
    av_rescale_q_rnd a bq cq = roundNearInf (a * (bq.num * cq.den)) (cq.num * bq.den) := by
  obtain ⟨hl, hu⟩ := hsafe a h1 h2
  unfold av_rescale_q_rnd av_rescale_rnd
  rw [if_neg (by omega), if_pos ⟨by omega, hu⟩]

lemma av_rescale_q_rnd_mono {bq cq : AVRational}
    (hb : 0 ≤ bq.num * cq.den) (hc : 0 < cq.num * bq.den)
    (hsafe : rescaleSafe (bq.num * cq.den) (cq.num * bq.den))
    {x y : Int} (hx : INT64_MIN < x) (hy : y ≤ INT64_MAX) (hxy : x ≤ y) :
    av_rescale_q_rnd x bq cq ≤ av_rescale_q_rnd y bq cq := by
  by_cases hxm : x = INT64_MAX
  · have hym : y = INT64_MAX := by omega
    rw [hxm, hym]
  · by_cases hym : y = INT64_MAX
    · rw [av_rescale_q_rnd_interior hsafe hx (by omega)]
      have := (hsafe x hx (by omega)).2
      unfold av_rescale_q_rnd
      rw [if_pos (Or.inr hym), hym]
      exact this
    · rw [av_rescale_q_rnd_interior hsafe hx (by omega),
        av_rescale_q_rnd_interior hsafe (by omega) (by omega)]
      exact roundNearInf_mono hc (by nlinarith)

lemma av_rescale_q_rnd_nonneg {a : Int} {bq cq : AVRational}
    (hb : 0 ≤ bq.num * cq.den) (hc : 0 < cq.num * bq.den)
    (hsafe : rescaleSafe (bq.num * cq.den) (cq.num * bq.den))
    (h0 : 0 ≤ a) (h2 : a ≤ INT64_MAX) :
    0 ≤ av_rescale_q_rnd a bq cq := by
  by_cases hm : a = INT64_MAX
  · unfold av_rescale_q_rnd
    rw [if_pos (Or.inr hm), hm]
    unfold INT64_MAX
    positivity
  · rw [av_rescale_q_rnd_interior hsafe (by unfold INT64_MIN; omega) (by omega)]
    exact roundNearInf_nonneg_of_nonneg (by positivity) hc

/-- Identity time bases never overflow. -/

lemma rescaleSafe_one : rescaleSafe 1 1 := by
  intro x h1 h2
  unfold roundNearInf
  constructor
  · by_cases hx : 0 ≤ x * 1 <;> simp [hx] <;> omega
  · by_cases hx : 0 ≤ x * 1 <;> simp [hx] <;> omega

/-- Bound: rounding `x*b/c` with `0 <= b <= c` stays below `x` for nonnegative `x`. -/

lemma roundNearInf_mul_le {x b c : Int} (hx : 0 ≤ x) (hb : 0 ≤ b) (hc : 0 < c)
    (hbc : b ≤ c) : roundNearInf (x * b) c ≤ x := by
  unfold roundNearInf
  rw [if_pos (by positivity : (0:Int) ≤ x * b)]
  have h1 : x * b + c / 2 ≤ c / 2 + x * c := by nlinarith
  have h2 : (x * b + c / 2) / c ≤ (c / 2 + x * c) / c := Int.ediv_le_ediv hc h1
  have h3 : (c / 2 + x * c) / c = c / 2 / c + x := Int.add_mul_ediv_right _ _ (ne_of_gt hc)
  have hd : 0 ≤ c / 2 := Int.ediv_nonneg (le_of_lt hc) (by norm_num)
  have h2d : 2 * (c / 2) ≤ c := by
    have := Int.ediv_add_emod c 2
    have := Int.emod_nonneg c (show (2:Int) ≠ 0 by norm_num)
    omega
  have h4 : c / 2 / c = 0 := Int.ediv_eq_zero_of_lt hd (by omega)
  omega

/-- Negation symmetry of the rounding, for positive `c`. -/

lemma roundNearInf_neg (n : Int) {c : Int} (hc : 0 < c) :
    roundNearInf (-n) c = -(roundNearInf n c) := by
  have hd : 0 ≤ c / 2 := Int.ediv_nonneg (le_of_lt hc) (by norm_num)
  have h2d : 2 * (c / 2) ≤ c := by
    have := Int.ediv_add_emod c 2
    have := Int.emod_nonneg c (show (2:Int) ≠ 0 by norm_num)
    omega
  have hzero : c / 2 / c = 0 := Int.ediv_eq_zero_of_lt hd (by omega)
  unfold roundNearInf
  rcases lt_trichotomy n 0 with h | h | h
  · rw [if_pos (by omega), if_neg (by omega), neg_neg]
  · subst h
    norm_num [hzero]
  · rw [if_neg (by omega), if_pos (by omega), neg_neg]

/-- Downscaling time bases (factor b/c at most one) never overflow. -/

lemma rescaleSafe_of_le {b c : Int} (hb : 0 ≤ b) (hc : 0 < c) (hbc : b ≤ c) :
    rescaleSafe b c := by
  intro x h1 h2
  by_cases hx : 0 ≤ x
  · have hub : roundNearInf (x * b) c ≤ x := roundNearInf_mul_le hx hb hc hbc
    have hlb : 0 ≤ roundNearInf (x * b) c :=
      roundNearInf_nonneg_of_nonneg (by positivity) hc
    unfold INT64_MIN INT64_MAX at *
    omega
  · have hneg : roundNearInf (x * b) c = -(roundNearInf (-x * b) c) := by
      rw [show x * b = -(-x * b) by ring, roundNearInf_neg _ hc]
    have hub : roundNearInf (-x * b) c ≤ -x := roundNearInf_mul_le (by omega) hb hc hbc
    have hlb : 0 ≤ roundNearInf (-x * b) c :=
      roundNearInf_nonneg_of_nonneg (mul_nonneg (by omega) hb) hc
    unfold INT64_MIN INT64_MAX at *
    omega

lemma vs_write_packet_pkt (i o : AVRational) (out : VSOutput) (pkt : AVPacket)
    (w : Bool) :
    (vs_write_packet i o out pkt w).2.2 = vs_transform i o out.last_dts pkt := by
  cases w <;> rfl

lemma vs_write_packet_out (i o : AVRational) (out : VSOutput) (pkt : AVPacket)
    (w : Bool) :
    (vs_write_packet i o out pkt w).2.1 =
      ⟨(vs_transform i o out.last_dts pkt).dts⟩ := by
  cases w <;> rfl

lemma vs_write_packet_code (i o : AVRational) (out : VSOutput) (pkt : AVPacket)
    (w : Bool) :
    (vs_write_packet i o out pkt w).1 = if w then 1 else -1 := by
  cases w <;> rfl

lemma fix_dts_true_iff {dts last : Int} :
    fix_dts dts last = true ↔
      ((dts ≠ AV_NOPTS_VALUE ∧ last ≠ AV_NOPTS_VALUE ∧ dts ≤ last) ∨
        (dts = AV_NOPTS_VALUE ∧ last ≠ AV_NOPTS_VALUE)) := by
  unfold fix_dts
  by_cases h1 : dts = AV_NOPTS_VALUE <;> by_cases h2 : last = AV_NOPTS_VALUE <;>
    by_cases h3 : dts ≤ last <;> simp [h1, h2, h3]

lemma vs_transform_dts_of_fix {i o : AVRational} {last : Int} {pkt : AVPacket}
    (h : fix_dts pkt.dts last = true) (hlast : INT64_MIN ≤ last) :
    (vs_transform i o last pkt).dts = av_rescale_q_rnd (last + 1) i o := by
  have hne : ¬ (last + 1 = AV_NOPTS_VALUE) := by
    unfold AV_NOPTS_VALUE at *
    omega
  simp only [vs_transform, h]
  simp [hne]

lemma vs_transform_dts_of_nofix_set {i o : AVRational} {last : Int}
    {pkt : AVPacket} (h : fix_dts pkt.dts last = false)
    (hset : pkt.dts ≠ AV_NOPTS_VALUE) :
    (vs_transform i o last pkt).dts = av_rescale_q_rnd pkt.dts i o := by
  simp only [vs_transform, h]
  simp [hset]

lemma vs_transform_dts_of_nofix_unset {i o : AVRational} {last : Int}
    {pkt : AVPacket} (h : fix_dts pkt.dts last = false)
    (hunset : pkt.dts = AV_NOPTS_VALUE) :
    (vs_transform i o last pkt).dts = 0 := by
  simp only [vs_transform, h]
  simp [hunset]

lemma vs_transform_pts_of_fix_set {i o : AVRational} {last : Int}
    {pkt : AVPacket} (h : fix_dts pkt.dts last = true)
    (hpts : pkt.pts ≠ AV_NOPTS_VALUE) (hge : pkt.pts ≥ pkt.dts)
    (hlast : INT64_MIN ≤ last) :
    (vs_transform i o last pkt).pts =
      av_rescale_q_rnd (max pkt.pts (last + 1)) i o := by
  have hmax : ¬ (max pkt.pts (last + 1) = AV_NOPTS_VALUE) := by
    have : last + 1 ≤ max pkt.pts (last + 1) := le_max_right _ _
    unfold AV_NOPTS_VALUE INT64_MIN at *
    omega
  simp only [vs_transform, h]
  simp [hpts, hge, hmax]

lemma vs_transform_pts_of_fix_unset {i o : AVRational} {last : Int}
    {pkt : AVPacket} (h : fix_dts pkt.dts last = true)
    (hpts : pkt.pts = AV_NOPTS_VALUE) (hlast : INT64_MIN ≤ last) :
    (vs_transform i o last pkt).pts = av_rescale_q_rnd (last + 1) i o := by
  have hne : ¬ (last + 1 = AV_NOPTS_VALUE) := by
    unfold AV_NOPTS_VALUE at *
    omega
  simp only [vs_transform, h]
  simp [hpts, hne]

lemma vs_transform_pts_of_nofix_set {i o : AVRational} {last : Int}
    {pkt : AVPacket} (h : fix_dts pkt.dts last = false)
    (hpts : pkt.pts ≠ AV_NOPTS_VALUE) :
    (vs_transform i o last pkt).pts = av_rescale_q_rnd pkt.pts i o := by
  simp only [vs_transform, h]
  simp [hpts]

lemma vs_transform_pts_of_nofix_unset {i o : AVRational} {last : Int}
    {pkt : AVPacket} (h : fix_dts pkt.dts last = false)
    (hpts : pkt.pts = AV_NOPTS_VALUE) :
    (vs_transform i o last pkt).pts = 0 := by
  simp only [vs_transform, h]
  simp [hpts]

lemma vs_transform_pts_ge_dts
    (i o : AVRational) (last : Int) (pkt : AVPacket)
    (hb : 0 ≤ i.num * o.den) (hc : 0 < o.num * i.den)
    (hsafe : rescaleSafe (i.num * o.den) (o.num * i.den))
    (hlast_lo : INT64_MIN ≤ last) (hlast_hi : last ≤ INT64_MAX - 1)
    (hpts_hi : pkt.pts ≤ INT64_MAX)
    (hdts_lo : INT64_MIN ≤ pkt.dts)
    (hpts_set : pkt.pts ≠ AV_NOPTS_VALUE)
    (hge : pkt.dts ≤ pkt.pts)
    (hnn : pkt.dts = AV_NOPTS_VALUE → last = AV_NOPTS_VALUE → 0 ≤ pkt.pts) :
    (vs_transform i o last pkt).dts ≤ (vs_transform i o last pkt).pts := by
  rcases Bool.eq_false_or_eq_true (fix_dts pkt.dts last) with hfd | hfd
  · rw [vs_transform_dts_of_fix hfd hlast_lo,
      vs_transform_pts_of_fix_set hfd hpts_set hge hlast_lo]
    exact av_rescale_q_rnd_mono hb hc hsafe
      (lt_of_le_of_lt hlast_lo (by omega))
      (max_le hpts_hi (by omega)) (le_max_right _ _)
  · by_cases hdn : pkt.dts = AV_NOPTS_VALUE
    · have hlast_n : last = AV_NOPTS_VALUE := by
        by_contra hln
        have hcon : fix_dts pkt.dts last = true :=
          fix_dts_true_iff.mpr (Or.inr ⟨hdn, hln⟩)
        rw [hcon] at hfd
        simp at hfd
      rw [vs_transform_dts_of_nofix_unset hfd hdn,
        vs_transform_pts_of_nofix_set hfd hpts_set]
      exact av_rescale_q_rnd_nonneg hb hc hsafe (hnn hdn hlast_n) hpts_hi
    · rw [vs_transform_dts_of_nofix_set hfd hdn,
        vs_transform_pts_of_nofix_set hfd hpts_set]
      have hdlo : INT64_MIN < pkt.dts := by
        unfold AV_NOPTS_VALUE at hdn
        omega
      exact av_rescale_q_rnd_mono hb hc hsafe hdlo hpts_hi hge

lemma remuxLoop_shape (vidx : Int) (i o : AVRational) (maxf : Int) :
    ∀ (events : List RdEv) (ist : Int) (out : VSOutput) (n : Nat),
      (remuxLoop vidx i o maxf events ist out n).teardown = [Tag.input, Tag.output] ∧
      (remuxLoop vidx i o maxf events ist out n).trailerWrites = 1 := by
  intro events
  induction events with
  | nil => intro ist out n; exact ⟨rfl, rfl⟩
  | cons ev rest ih =>
    intro ist out n
    cases ev with
    | err => exact ⟨rfl, rfl⟩
    | frame p wok =>
      simp only [remuxLoop]
      split_ifs with h1 h2 h3
      · exact ih ist out n
      · exact ⟨rfl, rfl⟩
      · exact ⟨rfl, rfl⟩
      · exact ih (ist + 1) _ _

lemma remuxLoop_budget_aux (vidx : Int) (i o : AVRational) (maxf : Int) :
    ∀ (events : List RdEv) (ist : Int) (out : VSOutput) (n : Nat),
      goodEvents events = true → 0 ≤ ist → ist < maxf →
      maxf - ist ≤ (vidCount vidx events : Int) →
      (remuxLoop vidx i o maxf events ist out n).code = 0 ∧
        ((remuxLoop vidx i o maxf events ist out n).committed : Int) =
          (n : Int) + (maxf - ist) := by
  intro events
  induction events with
  | nil =>
    intro ist out n hg h0 hlt hcnt
    simp [vidCount] at hcnt
    omega
  | cons ev rest ih =>
    intro ist out n hg h0 hlt hcnt
    cases ev with
    | err => simp [goodEvents] at hg
    | frame p wok =>
      have hg' : wok = true ∧ goodEvents rest = true := by
        simpa [goodEvents] using hg
      simp only [remuxLoop]
      split_ifs with h1 h2 h3
      · refine ih ist out n hg'.2 h0 hlt ?_
        simp only [vidCount, if_neg h1] at hcnt
        push_cast at hcnt ⊢
        omega
      · exfalso
        rw [vs_write_packet_code] at h2
        rw [hg'.1] at h2
        simp at h2
      · refine ⟨rfl, ?_⟩
        simp only [RunResult.committed]
        push_cast
        omega
      · have hsx : p.stream_index = vidx := not_not.mp h1
        have hcnt' : maxf - (ist + 1) ≤ (vidCount vidx rest : Int) := by
          simp only [vidCount, hsx, if_pos rfl] at hcnt
          push_cast at hcnt ⊢
          omega
        have hres := ih (ist + 1) (vs_write_packet i o out p wok).2.1 (n + 1)
          hg'.2 (by omega) (by omega) hcnt'
        refine ⟨hres.1, ?_⟩
        rw [hres.2]
        push_cast
        ring

lemma remuxLoop_unbounded_aux (vidx : Int) (i o : AVRational) :
    ∀ (events : List RdEv) (ist : Int) (out : VSOutput) (n : Nat), 0 ≤ ist →
      (remuxLoop vidx i o 0 events ist out n).code = 1 := by
  intro events
  induction events with
  | nil => intro ist out n h0; rfl
  | cons ev rest ih =>
    intro ist out n h0
    cases ev with
    | err => rfl
    | frame p wok =>
      simp only [remuxLoop]
      split_ifs with h1 h2 h3
      · exact ih ist out n h0
      · rfl
      · omega
      · exact ih (ist + 1) _ _ (by omega)

lemma findVideoStreamIndex_first (streams : List AVMediaType) (k : Nat)
    (hk : streams.get? k = some AVMediaType.video)
    (hbefore : ∀ j, j < k → streams.get? j ≠ some AVMediaType.video) :
    ∀ i : Int, findVideoStreamIndex streams i = i + k := by
  induction streams generalizing k with
  | nil => simp [List.get?] at hk
  | cons t rest ih =>
    intro i
    cases k with
    | zero =>
      have ht : t = AVMediaType.video := by
        simpa [List.get?] using hk
      simp [findVideoStreamIndex, ht]
    | succ k =>
      have ht : t ≠ AVMediaType.video := by
        have := hbefore 0 (Nat.succ_pos k)
        simpa [List.get?] using this
      have hk' : rest.get? k = some AVMediaType.video := by
        simpa [List.get?] using hk
      have hbefore' : ∀ j, j < k → rest.get? j ≠ some AVMediaType.video := by
        intro j hj
        have := hbefore (j + 1) (by omega)
        simpa [List.get?] using this
      rw [findVideoStreamIndex, if_neg ht, ih k hk' hbefore' (i + 1)]
      push_cast
      ring

lemma findVideoStreamIndex_none (streams : List AVMediaType)
    (hnone : ∀ t ∈ streams, t ≠ AVMediaType.video) :
    ∀ i : Int, findVideoStreamIndex streams i = -1 := by
  induction streams with
  | nil => intro i; rfl
  | cons t rest ih =>
    intro i
    rw [findVideoStreamIndex, if_neg (hnone t (List.mem_cons_self t rest))]
    exact ih (fun x hx => hnone x (List.mem_cons_of_mem t hx)) (i + 1)

lemma vs_open_input_ok (fmt url : Option String) (env : InputEnv)
    (h1 : ¬(fmt = none ∨ fmt = some "" ∨ url = none ∨ url = some ""))
    (hc : env.calloc_ok = true) (hf : env.format_found = true)
    (ho : env.open_ok = true) (hs : env.stream_info_ok = true) :
    (vs_open_input fmt url env).1 =
      if findVideoStreamIndex env.streams 0 = -1 then none
      else some ⟨findVideoStreamIndex env.streams 0, env.streams⟩ := by
  unfold vs_open_input
  rw [if_neg h1, if_neg (by simp [hc]), if_neg (by simp [hf]),
    if_neg (by simp [ho]), if_neg (by simp [hs])]
  by_cases hidx : findVideoStreamIndex env.streams 0 = -1
  · simp [hidx]
  · simp [hidx]

/-! ### Claim theorems -/

/-- C1: the committed destination-timebase DTS sequence is NOT strictly
increasing for all time bases: with source time base 1/90000 and destination
1/1000, the raw DTS sequence 90000, 45000 (decreasing, exactly the malformed
input the repair is documented to handle) is committed as 1000 followed by
500. Both `vs_write_packet` calls report success and the second corrected DTS
is not greater than the first `last_dts`. -/
theorem vs_write_packet_monotonicity_bug :
    (vs_write_packet ⟨1, 90000⟩ ⟨1, 1000⟩ ⟨AV_NOPTS_VALUE⟩
        ⟨90000, 90000, 0, 0, 0⟩ true).1 = 1 ∧
    (vs_write_packet ⟨1, 90000⟩ ⟨1, 1000⟩ ⟨AV_NOPTS_VALUE⟩
        ⟨90000, 90000, 0, 0, 0⟩ true).2.1.last_dts = 1000 ∧
    (vs_write_packet ⟨1, 90000⟩ ⟨1, 1000⟩ ⟨1000⟩
        ⟨45000, 45000, 0, 0, 0⟩ true).1 = 1 ∧
    (vs_write_packet ⟨1, 90000⟩ ⟨1, 1000⟩ ⟨1000⟩
        ⟨45000, 45000, 0, 0, 0⟩ true).2.2.dts = 500 ∧
    ¬ (1000 < (vs_write_packet ⟨1, 90000⟩ ⟨1, 1000⟩ ⟨1000⟩
        ⟨45000, 45000, 0, 0, 0⟩ true).2.2.dts) := by
  decide

/-- C2 counterexample: with source time base 1/90000, destination 1/1000 and
`last_dts = 1000`, the raw DTS 45000 has rescaled form 500 ≤ 1000, so the
claim requires repair with corrected DTS 1001; the code compares the raw DTS
(45000 ≤ 1000 is false), performs no repair, and produces DTS 500. Moreover,
when repair does fire (raw DTS 900), the repaired DTS 1001 IS rescaled again,
producing 11 rather than 1001. -/
theorem fix_dts_rescale_mismatch_cex :
    fix_dts 45000 1000 = false ∧
    av_rescale_q_rnd 45000 ⟨1, 90000⟩ ⟨1, 1000⟩ = 500 ∧ (500 : Int) ≤ 1000 ∧
    (vs_transform ⟨1, 90000⟩ ⟨1, 1000⟩ 1000 ⟨45000, 45000, 0, 0, 0⟩).dts = 500 ∧
    (500 : Int) ≠ 1000 + 1 ∧
    fix_dts 900 1000 = true ∧
    (vs_transform ⟨1, 90000⟩ ⟨1, 1000⟩ 1000 ⟨900, 900, 0, 0, 0⟩).dts = 11 ∧
    (11 : Int) ≠ 1000 + 1 := by
  decide

/-- C2 amended: `needsRepair` is true exactly when the raw DTS is set,
`lastCommittedDTS` is set and the RAW (source-timebase, unrescaled) DTS is at
most `lastCommittedDTS`, or when the raw DTS is unset while `lastCommittedDTS`
is set; when repair fires, the DTS becomes `lastCommittedDTS + 1` and that
value is then ALSO passed through the source-to-destination rescale; without
repair a set DTS is rescaled and an unset DTS becomes 0. -/
theorem fix_dts_repair_characterization (i o : AVRational) (last : Int)
    (pkt : AVPacket) (hlast : INT64_MIN ≤ last) :
    (fix_dts pkt.dts last = true ↔
      ((pkt.dts ≠ AV_NOPTS_VALUE ∧ last ≠ AV_NOPTS_VALUE ∧ pkt.dts ≤ last) ∨
        (pkt.dts = AV_NOPTS_VALUE ∧ last ≠ AV_NOPTS_VALUE))) ∧
    (fix_dts pkt.dts last = true →
      (vs_transform i o last pkt).dts = av_rescale_q_rnd (last + 1) i o) ∧
    (fix_dts pkt.dts last = false → pkt.dts ≠ AV_NOPTS_VALUE →
      (vs_transform i o last pkt).dts = av_rescale_q_rnd pkt.dts i o) ∧
    (fix_dts pkt.dts last = false → pkt.dts = AV_NOPTS_VALUE →
      (vs_transform i o last pkt).dts = 0) := by
  refine ⟨fix_dts_true_iff, ?_, ?_, ?_⟩
  · intro h
    exact vs_transform_dts_of_fix h hlast
  · intro h hset
    exact vs_transform_dts_of_nofix_set h hset
  · intro h hunset
    exact vs_transform_dts_of_nofix_unset h hunset

/-- C2 amended, witnessed at the concrete repair case of the counterexample:
`last_dts = 1000`, raw DTS 900, time bases 1/90000 and 1/1000. -/
theorem fix_dts_repair_characterization_witness :
    ((fix_dts (900 : Int) 1000 = true ↔
      (((900 : Int) ≠ AV_NOPTS_VALUE ∧ (1000 : Int) ≠ AV_NOPTS_VALUE ∧
          (900 : Int) ≤ 1000) ∨
        ((900 : Int) = AV_NOPTS_VALUE ∧ (1000 : Int) ≠ AV_NOPTS_VALUE))) ∧
    (fix_dts (900 : Int) 1000 = true →
      (vs_transform ⟨1, 90000⟩ ⟨1, 1000⟩ 1000 ⟨900, 900, 0, 0, 0⟩).dts =
        av_rescale_q_rnd (1000 + 1) ⟨1, 90000⟩ ⟨1, 1000⟩) ∧
    (fix_dts (900 : Int) 1000 = false → (900 : Int) ≠ AV_NOPTS_VALUE →
      (vs_transform ⟨1, 90000⟩ ⟨1, 1000⟩ 1000 ⟨900, 900, 0, 0, 0⟩).dts =
        av_rescale_q_rnd 900 ⟨1, 90000⟩ ⟨1, 1000⟩) ∧
    (fix_dts (900 : Int) 1000 = false → (900 : Int) = AV_NOPTS_VALUE →
      (vs_transform ⟨1, 90000⟩ ⟨1, 1000⟩ 1000 ⟨900, 900, 0, 0, 0⟩).dts = 0)) :=
  fix_dts_repair_characterization ⟨1, 90000⟩ ⟨1, 1000⟩ 1000
    ⟨900, 900, 0, 0, 0⟩ (by decide)

/-- C3 counterexample: a failed write still updates `last_dts`. With identity
time bases, `last_dts = 5` and a packet with DTS 10, the collaborator write
fails (`vs_write_packet` returns -1) yet `last_dts` has become 10. -/
theorem last_dts_update_on_failed_write_cex :
    (vs_write_packet ⟨1, 1⟩ ⟨1, 1⟩ ⟨5⟩ ⟨10, 10, 0, 0, 0⟩ false).1 = -1 ∧
    (vs_write_packet ⟨1, 1⟩ ⟨1, 1⟩ ⟨5⟩ ⟨10, 10, 0, 0, 0⟩ false).2.1.last_dts = 10 ∧
    (10 : Int) ≠ 5 := by
  decide

/-- C3 amended: `vs_write_packet` assigns the corrected DTS to
`output->last_dts` BEFORE attempting the write (videostreamer.c line 448
precedes the `av_write_frame` call at line 455), so the update happens
unconditionally: both on write failure (where the call returns -1) and on
success, the new `last_dts` is the corrected DTS of the packet. -/
theorem last_dts_unconditional_update (i o : AVRational) (out : VSOutput)
    (pkt : AVPacket) :
    (vs_write_packet i o out pkt false).1 = -1 ∧
    (vs_write_packet i o out pkt false).2.1.last_dts =
      (vs_transform i o out.last_dts pkt).dts ∧
    (vs_write_packet i o out pkt true).1 = 1 ∧
    (vs_write_packet i o out pkt true).2.1.last_dts =
      (vs_transform i o out.last_dts pkt).dts := by
  exact ⟨rfl, rfl, rfl, rfl⟩

/-- C4 counterexample: a committed packet with unset raw PTS and set raw DTS
(100), with `last_dts` unset and identity time bases, takes no repair, gets
corrected PTS 0 and corrected DTS 100, is committed successfully, and violates
corrected PTS ≥ corrected DTS. -/
theorem pts_ge_dts_violation_cex :
    (vs_write_packet ⟨1, 1⟩ ⟨1, 1⟩ ⟨AV_NOPTS_VALUE⟩
        ⟨AV_NOPTS_VALUE, 100, 0, 0, 0⟩ true).1 = 1 ∧
    (vs_write_packet ⟨1, 1⟩ ⟨1, 1⟩ ⟨AV_NOPTS_VALUE⟩
        ⟨AV_NOPTS_VALUE, 100, 0, 0, 0⟩ true).2.2.pts = 0 ∧
    (vs_write_packet ⟨1, 1⟩ ⟨1, 1⟩ ⟨AV_NOPTS_VALUE⟩
        ⟨AV_NOPTS_VALUE, 100, 0, 0, 0⟩ true).2.2.dts = 100 ∧
    ¬ ((vs_write_packet ⟨1, 1⟩ ⟨1, 1⟩ ⟨AV_NOPTS_VALUE⟩
        ⟨AV_NOPTS_VALUE, 100, 0, 0, 0⟩ true).2.2.dts ≤
      (vs_write_packet ⟨1, 1⟩ ⟨1, 1⟩ ⟨AV_NOPTS_VALUE⟩
        ⟨AV_NOPTS_VALUE, 100, 0, 0, 0⟩ true).2.2.pts) := by
  decide

/-- C4 amended: corrected PTS ≥ corrected DTS holds for a committed unit
provided the raw PTS is set and at least the raw DTS (an unset DTS compares as
the smallest value), the raw PTS is nonnegative in the no-repair case with an
unset DTS, the time bases are positive, the rescale factor never overflows the
64-bit clamp, and all raw values are 64-bit representable. -/
theorem commit_pts_ge_dts (i o : AVRational) (out : VSOutput) (pkt : AVPacket)
    (wok : Bool)
    (hb : 0 ≤ i.num * o.den) (hc : 0 < o.num * i.den)
    (hsafe : rescaleSafe (i.num * o.den) (o.num * i.den))
    (hlast_lo : INT64_MIN ≤ out.last_dts)
    (hlast_hi : out.last_dts ≤ INT64_MAX - 1)
    (hpts_hi : pkt.pts ≤ INT64_MAX) (hdts_lo : INT64_MIN ≤ pkt.dts)
    (hpts_set : pkt.pts ≠ AV_NOPTS_VALUE) (hge : pkt.dts ≤ pkt.pts)
    (hnn : pkt.dts = AV_NOPTS_VALUE → out.last_dts = AV_NOPTS_VALUE →
      0 ≤ pkt.pts) :
    (vs_write_packet i o out pkt wok).2.2.dts ≤
      (vs_write_packet i o out pkt wok).2.2.pts := by
  rw [vs_write_packet_pkt]
  exact vs_transform_pts_ge_dts i o out.last_dts pkt hb hc hsafe hlast_lo
    hlast_hi hpts_hi hdts_lo hpts_set hge hnn

/-- C4 amended, witnessed with identity time bases, `last_dts = 5` and a
well-formed packet with PTS 10 and DTS 7. -/
theorem commit_pts_ge_dts_witness :
    (vs_write_packet ⟨1, 1⟩ ⟨1, 1⟩ ⟨5⟩ ⟨10, 7, 0, 0, 0⟩ true).2.2.dts ≤
      (vs_write_packet ⟨1, 1⟩ ⟨1, 1⟩ ⟨5⟩ ⟨10, 7, 0, 0, 0⟩ true).2.2.pts :=
  commit_pts_ge_dts ⟨1, 1⟩ ⟨1, 1⟩ ⟨5⟩ ⟨10, 7, 0, 0, 0⟩ true (by decide)
    (by decide) (by simpa using rescaleSafe_one) (by decide) (by decide)
    (by decide) (by decide) (by decide) (by decide) (by decide)

/-- C5 counterexample: on the successful budget-exhaustion path the teardown
order is input session first, then output session — not destination first as
claimed. -/
theorem teardown_order_cex :
    (remuxLoop 0 ⟨1, 1⟩ ⟨1, 1⟩ 1 [RdEv.frame ⟨0, 0, 0, 0, 0⟩ true] 0
        ⟨AV_NOPTS_VALUE⟩ 0).teardown = [Tag.input, Tag.output] ∧
    [Tag.input, Tag.output] ≠ [Tag.output, Tag.input] := by
  decide

/-- C5 amended: on EVERY terminal path of the remux run (success, read
failure including source exhaustion, and write failure), `remux_example.c`
destroys the SourceSession first and then the DestinationSession — the
opposite of the claimed order; the trailer is still written on each path. -/
theorem teardown_order_source_first (vidx : Int) (i o : AVRational)
    (maxf : Int) (events : List RdEv) (ist : Int) (out : VSOutput) (n : Nat) :
    (remuxLoop vidx i o maxf events ist out n).teardown =
      [Tag.input, Tag.output] :=
  (remuxLoop_shape vidx i o maxf events ist out n).1

/-- C6: with a positive frame budget N and a source providing at least N
units of the selected stream with no read or write failures, the pump loop
exits successfully having committed exactly N units, and teardown still
writes the trailer exactly once; with a budget of 0 the budget break is never
taken — the loop runs until source exhaustion or error (exit code 1). -/
theorem frame_budget_enforcement (vidx : Int) (i o : AVRational)
    (events : List RdEv) (N : Int) (out : VSOutput) :
    (0 < N → goodEvents events = true → N ≤ (vidCount vidx events : Int) →
      (remuxLoop vidx i o N events 0 out 0).code = 0 ∧
      ((remuxLoop vidx i o N events 0 out 0).committed : Int) = N ∧
      (remuxLoop vidx i o N events 0 out 0).trailerWrites = 1) ∧
    (remuxLoop vidx i o 0 events 0 out 0).code = 1 := by
  constructor
  · intro hN hg hcnt
    have h := remuxLoop_budget_aux vidx i o N events 0 out 0 hg le_rfl hN
      (by simpa using hcnt)
    have h2 := h.2
    norm_num at h2
    exact ⟨h.1, h2, (remuxLoop_shape vidx i o N events 0 out 0).2⟩
  · exact remuxLoop_unbounded_aux vidx i o events 0 out 0 le_rfl

/-- C6, witnessed with three available video units, budget 2: exactly two are
committed; with budget 0 the loop runs to exhaustion and exits 1. -/
theorem frame_budget_enforcement_witness :
    ((remuxLoop 0 ⟨1, 1⟩ ⟨1, 1⟩ 2
        [RdEv.frame ⟨0, 0, 0, 0, 0⟩ true, RdEv.frame ⟨1, 1, 0, 0, 0⟩ true,
          RdEv.frame ⟨2, 2, 0, 0, 0⟩ true] 0 ⟨AV_NOPTS_VALUE⟩ 0).code = 0 ∧
      ((remuxLoop 0 ⟨1, 1⟩ ⟨1, 1⟩ 2
        [RdEv.frame ⟨0, 0, 0, 0, 0⟩ true, RdEv.frame ⟨1, 1, 0, 0, 0⟩ true,
          RdEv.frame ⟨2, 2, 0, 0, 0⟩ true] 0 ⟨AV_NOPTS_VALUE⟩ 0).committed : Int) = 2 ∧
      (remuxLoop 0 ⟨1, 1⟩ ⟨1, 1⟩ 2
        [RdEv.frame ⟨0, 0, 0, 0, 0⟩ true, RdEv.frame ⟨1, 1, 0, 0, 0⟩ true,
          RdEv.frame ⟨2, 2, 0, 0, 0⟩ true] 0 ⟨AV_NOPTS_VALUE⟩ 0).trailerWrites = 1) ∧
    (remuxLoop 0 ⟨1, 1⟩ ⟨1, 1⟩ 0
        [RdEv.frame ⟨0, 0, 0, 0, 0⟩ true, RdEv.frame ⟨1, 1, 0, 0, 0⟩ true,
          RdEv.frame ⟨2, 2, 0, 0, 0⟩ true] 0 ⟨AV_NOPTS_VALUE⟩ 0).code = 1 := by
  have h := frame_budget_enforcement 0 ⟨1, 1⟩ ⟨1, 1⟩
    [RdEv.frame ⟨0, 0, 0, 0, 0⟩ true, RdEv.frame ⟨1, 1, 0, 0, 0⟩ true,
      RdEv.frame ⟨2, 2, 0, 0, 0⟩ true] 2 ⟨AV_NOPTS_VALUE⟩
  exact ⟨h.1 (by decide) (by decide) (by decide), h.2⟩

/-- C7: with valid arguments and a cooperative collaborator, `vs_open_input`
selects exactly the first stream (in declaration order) whose media kind is
video and fails when there is none; `vs_read_packet` maps a packet from any
other stream to the Empty outcome (0, dropped) — and the pump loop treats such
a packet as a no-op, so it is never committed — while a packet of the selected
stream is returned unchanged with result 1. -/
theorem stream_selection_and_filtering
    (fmt url : Option String) (env : InputEnv) (k : Nat) (p : AVPacket)
    (vidx : Int) (i o : AVRational) (maxf ist : Int) (events : List RdEv)
    (out : VSOutput) (n : Nat) (w : Bool) :
    (¬(fmt = none ∨ fmt = some "" ∨ url = none ∨ url = some "") →
      env.calloc_ok = true → env.format_found = true → env.open_ok = true →
      env.stream_info_ok = true →
      ((env.streams.get? k = some AVMediaType.video ∧
          ∀ j, j < k → env.streams.get? j ≠ some AVMediaType.video) →
        (vs_open_input fmt url env).1 = some ⟨(k : Int), env.streams⟩) ∧
      ((∀ t ∈ env.streams, t ≠ AVMediaType.video) →
        (vs_open_input fmt url env).1 = none)) ∧
    (p.stream_index ≠ vidx →
      vs_read_packet vidx (some p) = (0, none) ∧
      remuxLoop vidx i o maxf (RdEv.frame p w :: events) ist out n =
        remuxLoop vidx i o maxf events ist out n) ∧
    (p.stream_index = vidx → vs_read_packet vidx (some p) = (1, some p)) := by
  refine ⟨?_, ?_, ?_⟩
  · intro hv hc hf ho hs
    constructor
    · rintro ⟨hk, hbefore⟩
      rw [vs_open_input_ok fmt url env hv hc hf ho hs,
        findVideoStreamIndex_first env.streams k hk hbefore 0]
      rw [if_neg (by omega)]
      norm_num
    · intro hnone
      rw [vs_open_input_ok fmt url env hv hc hf ho hs,
        findVideoStreamIndex_none env.streams hnone 0]
      simp
  · intro hsx
    refine ⟨by simp [vs_read_packet, hsx], ?_⟩
    simp only [remuxLoop, if_pos hsx]
  · intro hsx
    simp [vs_read_packet, hsx]

/-- C7, witnessed on the spec scenario: sub-streams [audio@0, video@1] select
index 1, a packet with stream index 0 is dropped, one with index 1 is passed
through unchanged. -/
theorem stream_selection_and_filtering_witness :
    (vs_open_input (some "rtsp") (some "rtsp://cam")
        ⟨true, true, true, true,
          [AVMediaType.audio, AVMediaType.video]⟩).1 =
      some ⟨1, [AVMediaType.audio, AVMediaType.video]⟩ ∧
    vs_read_packet 1 (some ⟨7, 8, 9, 10, 0⟩) = (0, none) ∧
    vs_read_packet 1 (some ⟨7, 8, 9, 10, 1⟩) = (1, some ⟨7, 8, 9, 10, 1⟩) := by
  have h1 := stream_selection_and_filtering (some "rtsp") (some "rtsp://cam")
    ⟨true, true, true, true, [AVMediaType.audio, AVMediaType.video]⟩ 1
    ⟨7, 8, 9, 10, 0⟩ 1 ⟨1, 1⟩ ⟨1, 1⟩ 0 0 [] ⟨0⟩ 0 true
  have h2 := stream_selection_and_filtering (some "rtsp") (some "rtsp://cam")
    ⟨true, true, true, true, [AVMediaType.audio, AVMediaType.video]⟩ 1
    ⟨7, 8, 9, 10, 1⟩ 1 ⟨1, 1⟩ ⟨1, 1⟩ 0 0 [] ⟨0⟩ 0 true
  refine ⟨?_, (h1.2.1 (by decide)).1, h2.2.2 rfl⟩
  exact (h1.1 (by decide) rfl rfl rfl rfl).1
    ⟨rfl, by
      intro j hj
      have hj0 : j = 0 := Nat.lt_one_iff.mp hj
      subst hj0
      decide⟩

/-- C8: the rescale arithmetic rounds to the nearest integer (the doubled
distance between `n` and `c * round(n/c)` is at most `c`) with ties away from
zero (at a tie the rounded magnitude exceeds `|n|/c` by exactly half), and on
the spec instances with source time base 1/90000 and destination 1/1000, PTS
90000 rescales to exactly 1000 and PTS 45000 to exactly 500. -/
theorem rescale_round_near_characterization (n c : Int) (hc : 0 < c) :
    (2 * |n - c * roundNearInf n c| ≤ c ∧
      (2 * |n - c * roundNearInf n c| = c →
        2 * (c * |roundNearInf n c| - |n|) = c)) ∧
    av_rescale_q_rnd 90000 ⟨1, 90000⟩ ⟨1, 1000⟩ = 1000 ∧
    av_rescale_q_rnd 45000 ⟨1, 90000⟩ ⟨1, 1000⟩ = 500 :=
  ⟨roundNearInf_char n hc, by decide, by decide⟩

/-- C8, witnessed at the tie case n = 6, c = 4 (1.5 rounds away from zero
to 2). -/
theorem rescale_round_near_characterization_witness :
    ((2 * |(6 : Int) - 4 * roundNearInf 6 4| ≤ 4 ∧
      (2 * |(6 : Int) - 4 * roundNearInf 6 4| = 4 →
        2 * (4 * |roundNearInf 6 4| - |(6 : Int)|) = 4)) ∧
    av_rescale_q_rnd 90000 ⟨1, 90000⟩ ⟨1, 1000⟩ = 1000 ∧
    av_rescale_q_rnd 45000 ⟨1, 90000⟩ ⟨1, 1000⟩ = 500) :=
  rescale_round_near_characterization 6 4 (by decide)

/-- C9 counterexample: the first close frees the struct unconditionally
(line 267) and leaves the caller's pointer dangling, so a second
`vs_destroy_output` on the same pointer passes the NULL guard and reads
`output->format_ctx` from freed memory — a use-after-free with no defined
behaviour; it is not the claimed well-defined no-retrailer/no-crash no-op. -/
theorem destroy_output_second_close_cex :
    (vs_destroy_output (SessionPtr.live ⟨true, 42⟩) false true).1 =
      SessionPtr.freed ∧
    (vs_destroy_output
        (vs_destroy_output (SessionPtr.live ⟨true, 42⟩) false true).1
        true true).2 = DestroyOutcome.ub ∧
    DestroyOutcome.ub ≠ DestroyOutcome.ok [] := by
  decide

/-- C9 amended: closing a DestinationSession is NOT idempotent on the same
pointer: the struct is freed unconditionally, so a second close on the same
(now dangling, non-NULL) pointer is a use-after-free with undefined behaviour.
The guarded no-op holds only for a NULL pointer; and within one close on a
live session the trailer-write result is only printed, so the avio close and
context free are attempted regardless of a trailer-write failure. -/
theorem destroy_output_guard_best_effort (t c : Bool) (h : VSOutputSession) :
    vs_destroy_output SessionPtr.null t c =
      (SessionPtr.null, DestroyOutcome.ok []) ∧
    (h.format_ctx = true →
      (vs_destroy_output (SessionPtr.live h) t c).2 =
        DestroyOutcome.ok destroyOutputEffects ∧
      Effect.write_trailer ∈ destroyOutputEffects ∧
      Effect.avio_close ∈ destroyOutputEffects ∧
      (vs_destroy_output (SessionPtr.live h) false c).2 =
        (vs_destroy_output (SessionPtr.live h) true c).2) ∧
    (vs_destroy_output (vs_destroy_output (SessionPtr.live h) t c).1 t c).2 =
      DestroyOutcome.ub := by
  refine ⟨rfl, ?_, ?_⟩
  · intro hfc
    refine ⟨?_, ?_, ?_, rfl⟩ <;>
      simp [vs_destroy_output, hfc, destroyOutputEffects]
  · by_cases hfc : h.format_ctx <;> simp [vs_destroy_output, hfc]

/-- C9 amended, witnessed on a live session with `format_ctx` set and a
failing trailer write. -/
theorem destroy_output_guard_best_effort_witness :
    vs_destroy_output SessionPtr.null false true =
      (SessionPtr.null, DestroyOutcome.ok []) ∧
    ((vs_destroy_output (SessionPtr.live ⟨true, 42⟩) false true).2 =
        DestroyOutcome.ok destroyOutputEffects ∧
      Effect.write_trailer ∈ destroyOutputEffects ∧
      Effect.avio_close ∈ destroyOutputEffects ∧
      (vs_destroy_output (SessionPtr.live ⟨true, 42⟩) false true).2 =
        (vs_destroy_output (SessionPtr.live ⟨true, 42⟩) true true).2) ∧
    (vs_destroy_output
        (vs_destroy_output (SessionPtr.live ⟨true, 42⟩) false true).1
        false true).2 = DestroyOutcome.ub := by
  have h := destroy_output_guard_best_effort false true ⟨true, 42⟩
  exact ⟨h.1, h.2.1 rfl, h.2.2⟩

/-- C10: a NULL or empty format name or location (and, for the output open, a
NULL input session) makes `vs_open_input`/`vs_open_output` fail immediately:
no session is returned and no collaborator call — in particular no container
open — is performed. -/
theorem open_arg_validation (fmtI urlI : Option String) (envI : InputEnv)
    (fmtO urlO : Option String) (inp : Option VSInput) (envO : OutputEnv) :
    ((fmtI = none ∨ fmtI = some "" ∨ urlI = none ∨ urlI = some "") →
      vs_open_input fmtI urlI envI = (none, [])) ∧
    ((fmtO = none ∨ fmtO = some "" ∨ urlO = none ∨ urlO = some "" ∨
        inp = none) →
      vs_open_output fmtO urlO inp envO = (none, [])) := by
  constructor
  · intro h
    unfold vs_open_input
    rw [if_pos h]
  · intro h
    unfold vs_open_output
    rw [if_pos h]

/-- C10, witnessed with a NULL input format name and a NULL input session. -/
theorem open_arg_validation_witness :
    vs_open_input none (some "rtsp://cam")
        ⟨true, true, true, true, []⟩ = (none, []) ∧
    vs_open_output (some "mp4") (some "file:out.mp4") none
        ⟨true, true, true, true, true, true, true, true, true, true⟩ =
      (none, []) := by
  have h := open_arg_validation none (some "rtsp://cam")
    ⟨true, true, true, true, []⟩ (some "mp4") (some "file:out.mp4") none
    ⟨true, true, true, true, true, true, true, true, true, true⟩
  exact ⟨h.1 (Or.inl rfl), h.2 (by simp)⟩
